import Mathlib

/-!
Shallow embedding of `x708/daemon.py` (x708power daemon): battery gauge
decoding, the power controller's evaluation loop, the termination future,
and the button-press classifier, followed by theorems checking the
specification's claims against these definitions.

Floating-point arithmetic of the source is modelled over `ℚ` (all the
constants involved, 1.25 and 3.2, are exact decimals), timestamps as
integers, and elapsed whole-second counts as naturals.  Logging calls are
modelled only where a claim depends on them; the decision values they
accompany are modelled exactly.
-/

namespace X708

/-- `MIN_VOLTAGE = 3.2` from the module constants. -/
def MIN_VOLTAGE : ℚ := 3.2

/-- `MIN_CAPACITY = 15` from the module constants. -/
def MIN_CAPACITY : ℚ := 15

/-- `X708_POWER_OFF_GPIO_OUT = 13` from the module constants. -/
def X708_POWER_OFF_GPIO_OUT : ℕ := 13

/-- The `PressAction` enumeration. -/
inductive PressAction where
  | SHORT_PRESS
  | LONG_PRESS
deriving DecidableEq

/-- Observable side effects of the controller (GPIO writes, sleeps, OS
commands, log lines), recorded as a trace. -/
inductive Action where
  | gpioSetupOut (pin : ℕ)
  | gpioOutput (pin : ℕ) (level : ℕ)
  | sleep (seconds : ℕ)
  | osCall (cmd : List String)
  | logInfo (msg : String)
  | logWarning (msg : String)
deriving DecidableEq

/-- `struct.pack(">H", read)`: the two big-endian bytes of a 16-bit value. -/
def pack_be16 (n : ℕ) : List ℕ := [n / 256 % 256, n % 256]

/-- `struct.unpack("<H", bytes)[0]`: reassemble two bytes little-endian. -/
def unpack_le16 : List ℕ → ℕ
  | [b0, b1] => b0 + 256 * b1
  | _ => 0

/-- `swapped = struct.unpack("<H", struct.pack(">H", read))[0]` as it appears
in both `read_voltage` and `read_capacity`. -/
def swapped (read : ℕ) : ℕ := unpack_le16 (pack_be16 read)

/-- The voltage computed by `read_voltage`: `swapped * 1.25 / 1000 / 16`. -/
def decode_voltage (read : ℕ) : ℚ := (swapped read : ℚ) * 1.25 / 1000 / 16

/-- The capacity computed by `read_capacity`: `swapped / 256`. -/
def decode_capacity (read : ℕ) : ℚ := (swapped read : ℚ) / 256

/-- The mutable fields of `BatteryLevelMonitor`; both start as `None`. -/
structure BatteryState where
  capacity : Option ℚ
  voltage : Option ℚ
deriving DecidableEq

/-- Initial gauge state from `BatteryLevelMonitor.__init__`. -/
def BatteryState.init : BatteryState := ⟨none, none⟩

/-- `read_voltage`: one bus read (`none` models an I2C failure raising),
then assignment of `self.voltage`.  On failure the exception propagates
before the assignment, so the state is returned unchanged with `false`. -/
def read_voltage (b : BatteryState) (busRead : Option ℕ) : BatteryState × Bool :=
  match busRead with
  | none => (b, false)
  | some raw => ({ b with voltage := some (decode_voltage raw) }, true)

/-- `read_capacity`: one bus read, then assignment of `self.capacity`. -/
def read_capacity (b : BatteryState) (busRead : Option ℕ) : BatteryState × Bool :=
  match busRead with
  | none => (b, false)
  | some raw => ({ b with capacity := some (decode_capacity raw) }, true)

/-- `read_metrics`: `read_voltage()` then `read_capacity()`, sequentially.
`r2` and `r4` are the bus results for registers 2 and 4.  If the first
read raises, the second never runs; if the second raises, the voltage
assignment performed by the first remains in place. -/
def read_metrics (b : BatteryState) (r2 r4 : Option ℕ) : BatteryState × Bool :=
  match read_voltage b r2 with
  | (b1, false) => (b1, false)
  | (b1, true) => read_capacity b1 r4

/-- The mutable fields of `PowerController`.  The `asyncio.Future`
`_terminate_event` is represented by its `done()` bit: it carries no data
the program reads beyond doneness. -/
structure ControllerState where
  is_power_lost : Bool
  in_power_mode_since : ℤ
  battery : BatteryState
  previous_battery_capacity : ℚ
  terminate_event : Bool
deriving DecidableEq

/-- `PowerController.__init__`: power not lost, mode timestamp = now,
`_previous_battery_capacity = -1`, termination future pending. -/
def ControllerState.init (now : ℤ) : ControllerState :=
  { is_power_lost := false
    in_power_mode_since := now
    battery := BatteryState.init
    previous_battery_capacity := -1
    terminate_event := false }

/-- `on_power_loss_change`: store the flag and reset the mode timestamp. -/
def on_power_loss_change (s : ControllerState) (is_lost : Bool) (now : ℤ) :
    ControllerState :=
  { s with is_power_lost := is_lost, in_power_mode_since := now }

/-- `stop`: logs, then `self._terminate_event.set_result(True)`.
`Future.set_result` on a future that is already done raises
`asyncio.InvalidStateError`; the `.error` branch models that exception. -/
def stop (s : ControllerState) : Except String (ControllerState × List Action) :=
  if s.terminate_event then .error "InvalidStateError"
  else .ok ({ s with terminate_event := true }, [.logInfo "Terminating"])

/-- `shutdown(reason)`: log, run `shutdown now`, then `stop()`. -/
def shutdown (s : ControllerState) (reason : String) :
    Except String (ControllerState × List Action) :=
  match stop s with
  | .error e => .error e
  | .ok (s1, stopActs) =>
      .ok (s1, [.logWarning ("Shutting down (" ++ reason ++ ")"),
                .osCall ["shutdown", "now"]] ++ stopActs)

/-- `reboot(reason)`: log, run `reboot`, then `stop()`. -/
def reboot (s : ControllerState) (reason : String) :
    Except String (ControllerState × List Action) :=
  match stop s with
  | .error e => .error e
  | .ok (s1, stopActs) =>
      .ok (s1, [.logInfo ("Rebooting (" ++ reason ++ ")"),
                .osCall ["reboot"]] ++ stopActs)

/-- `on_power_button_press`: ignored once the termination future is done;
otherwise short press reboots and long press shuts down. -/
def on_power_button_press (s : ControllerState) (action : PressAction) :
    Except String (ControllerState × List Action) :=
  if s.terminate_event then .ok (s, [])
  else
    match action with
    | .SHORT_PRESS => reboot s "short button press"
    | .LONG_PRESS => shutdown s "long button press"

/-- The decision value of the `is_low_battery` property getter:
`capacity < MIN_CAPACITY` or `voltage < MIN_VOLTAGE` (the getter also logs
one warning per breached threshold; the returned boolean is modelled).
In the source the comparisons run on the current `battery.capacity` and
`battery.voltage`, which the loop has just set. -/
def is_low_battery (capacity voltage : ℚ) : Bool :=
  decide (capacity < MIN_CAPACITY) || decide (voltage < MIN_VOLTAGE)

/-- `log_status`: compares the current capacity against
`_previous_battery_capacity`; when the absolute difference is at least 1
it stores the capacity and logs the pair (accessing the voltage).  `none`
models the `TypeError` raised when a consulted reading is still `None`;
the returned flag records whether a log line was emitted. -/
def log_status (s : ControllerState) : Option (ControllerState × Bool) :=
  match s.battery.capacity with
  | none => none
  | some c =>
      if 1 ≤ |c - s.previous_battery_capacity| then
        match s.battery.voltage with
        | none => none
        | some _ => some ({ s with previous_battery_capacity := c }, true)
      else some (s, false)

/-- `initiate_shutdown`: configure pin 13 as output, drive it high, hold
for 3 seconds, drive it low.  No OS command and no write to the
termination future occur here. -/
def initiate_shutdown_actions : List Action :=
  [.gpioSetupOut X708_POWER_OFF_GPIO_OUT,
   .gpioOutput X708_POWER_OFF_GPIO_OUT 1,
   .sleep 3,
   .gpioOutput X708_POWER_OFF_GPIO_OUT 0]

/-- Result of one iteration of the `while` body of `loop`:
`exception` means an error propagated out of the coroutine (the loop does
not reach its next iteration); `normal` carries the post-iteration state,
whether `initiate_shutdown` ran, and the recorded side effects. -/
inductive TickOutcome where
  | exception (s : ControllerState)
  | normal (s : ControllerState) (initiated : Bool) (acts : List Action)
deriving DecidableEq

/-- Whether the iteration completed without an exception. -/
def TickOutcome.isNormal : TickOutcome → Bool
  | .exception _ => false
  | .normal _ _ _ => true

/-- State after the iteration. -/
def TickOutcome.state : TickOutcome → ControllerState
  | .exception s => s
  | .normal s _ _ => s

/-- Whether `initiate_shutdown` ran during the iteration. -/
def TickOutcome.initiated : TickOutcome → Bool
  | .exception _ => false
  | .normal _ i _ => i

/-- Side effects recorded during the iteration. -/
def TickOutcome.acts : TickOutcome → List Action
  | .exception _ => []
  | .normal _ _ a => a

/-- One iteration of the body of `PowerController.loop`:
`self.battery.read_metrics()` (no surrounding try/except — a raised bus
error propagates and aborts the coroutine), then `log_status()`, then, if
`is_power_lost and is_low_battery`, the shutdown-initiation branch
(logging and `initiate_shutdown`).  `r2`/`r4` are the bus results. -/
def loop_tick (s : ControllerState) (r2 r4 : Option ℕ) : TickOutcome :=
  match read_metrics s.battery r2 r4 with
  | (b1, false) => .exception { s with battery := b1 }
  | (b1, true) =>
      let s1 := { s with battery := b1 }
      match log_status s1 with
      | none => .exception s1
      | some (s2, _) =>
          match s2.battery.capacity, s2.battery.voltage with
          | some c, some v =>
              if s2.is_power_lost && is_low_battery c v then
                .normal s2 true initiate_shutdown_actions
              else
                .normal s2 false []
          | _, _ => .exception s2

/-- State of `PowerButtonPressMonitor`.  `futureDone` is `none` while
`_release_future is None`, otherwise `some d` where `d` is the future's
`done()` bit (a result being set or `wait_for` cancelling it on timeout
both make it done).  `deadline` is the pending `wait_for` expiry of the
active `_on_press` coroutine, if one is still racing.  `emits` records
each `(time, action)` delivered to the callback. -/
structure ClassifierState where
  futureDone : Option Bool
  deadline : Option ℕ
  emits : List (ℕ × PressAction)
deriving DecidableEq

/-- Classifier state at construction: `_release_future = None`. -/
def ClassifierState.init : ClassifierState :=
  { futureDone := none, deadline := none, emits := [] }

/-- Expiry of a pending `asyncio.wait_for(..., 2)` at time `now`: if the
deadline has been reached, `wait_for` cancels the release future (making
it done) and the `TimeoutError` branch fires the callback with
`LONG_PRESS` at the deadline instant. -/
def fire_timeout (s : ClassifierState) (now : ℕ) : ClassifierState :=
  match s.deadline with
  | none => s
  | some d =>
      if d ≤ now then
        { futureDone := some true, deadline := none,
          emits := s.emits ++ [(d, .LONG_PRESS)] }
      else s

/-- `_on_press` scheduled at time `t` (any pending timeout strictly due by
then has already fired): create a fresh `asyncio.Future` and start
`wait_for(self._release_future, 2)`, due at `t + 2`. -/
def on_press (s : ClassifierState) (t : ℕ) : ClassifierState :=
  let s1 := fire_timeout s t
  { s1 with futureDone := some false, deadline := some (t + 2) }

/-- `_on_release` scheduled at time `t` (any pending timeout due by then
fires first — `wait_for`'s timer wins a simultaneous arrival): if
`self._release_future` exists and is not done, set its result, which
completes `wait_for` and fires the callback with `SHORT_PRESS`;
otherwise the edge is a no-op. -/
def on_release (s : ClassifierState) (t : ℕ) : ClassifierState :=
  let s1 := fire_timeout s t
  match s1.futureDone with
  | some false =>
      { futureDone := some true, deadline := none,
        emits := s1.emits ++ [(t, .SHORT_PRESS)] }
  | _ => s1

/-- A timestamped edge event on the button pin. -/
inductive BtnEvent where
  | press (t : ℕ)
  | release (t : ℕ)
deriving DecidableEq

/-- Run a time-ordered list of edge events through the classifier. -/
def run_events (s : ClassifierState) : List BtnEvent → ClassifierState
  | [] => s
  | .press t :: rest => run_events (on_press s t) rest
  | .release t :: rest => run_events (on_release s t) rest

/-- The `days/hours/minutes/seconds` decomposition computed by the
`divmod` chain in `log_power_lost_duration`. -/
def duration_parts (elapsed : ℕ) : ℕ × ℕ × ℕ × ℕ :=
  let days := elapsed / 86400
  let rem := elapsed % 86400
  let hours := rem / 3600
  let rem2 := rem % 3600
  let minutes := rem2 / 60
  let seconds := rem2 % 60
  (days, hours, minutes, seconds)

/-- The `", ".join(...)` of `"{n} {magnitude}"` over the four magnitudes
in order, keeping only the truthy (non-zero) ones, as built by the
generator expression in `log_power_lost_duration`. -/
def format_magnitudes (elapsed : ℕ) : String :=
  let p := duration_parts elapsed
  let pairs : List (ℕ × String) :=
    [(p.1, "days"), (p.2.1, "hours"), (p.2.2.1, "minutes"), (p.2.2.2, "seconds")]
  String.intercalate ", "
    ((pairs.filter (fun q => q.1 != 0)).map (fun q => toString q.1 ++ " " ++ q.2))

/-- The full log line of `log_power_lost_duration` for a given elapsed
whole-second count. -/
def log_power_lost_duration_message (elapsed : ℕ) : String :=
  "Shutdown initiated after " ++ format_magnitudes elapsed ++ " on battery"

/-- The `is_low_battery` property getter applied to the stored battery
state: comparing a still-`None` reading against a number raises a
`TypeError` in the source, modelled by `none`. -/
def is_low_battery_getter (b : BatteryState) : Option Bool :=
  match b.capacity, b.voltage with
  | some c, some v => some (is_low_battery c v)
  | _, _ => none

/-- Whether an action is a call to an external OS command. -/
def Action.isOsCall : Action → Bool
  | .osCall _ => true
  | _ => false

/-- A freshly constructed controller that has been notified of power
loss: the state the daemon is in when mains power is out. -/
def power_lost_start : ControllerState :=
  { ControllerState.init 0 with is_power_lost := true }

/- ------------------------------------------------------------------ -/
/- Theorems                                                            -/
/- ------------------------------------------------------------------ -/

/-- Shape of a loop iteration whose two bus reads both succeed: it never
raises, `initiate_shutdown` runs exactly when the power-lost flag is set
and the freshly decoded readings are low, only the hardware power-off
actions are emitted on that branch, and the termination future is left
untouched. -/
theorem loop_tick_read_ok (s : ControllerState) (raw2 raw4 : ℕ) :
    (loop_tick s (some raw2) (some raw4)).initiated =
      (s.is_power_lost && is_low_battery (decode_capacity raw4) (decode_voltage raw2)) ∧
    (loop_tick s (some raw2) (some raw4)).acts =
      (if s.is_power_lost && is_low_battery (decode_capacity raw4) (decode_voltage raw2)
       then initiate_shutdown_actions else []) ∧
    (loop_tick s (some raw2) (some raw4)).state.terminate_event = s.terminate_event ∧
    (loop_tick s (some raw2) (some raw4)).isNormal = true := by
  by_cases hlog : 1 ≤ |decode_capacity raw4 - s.previous_battery_capacity| <;>
    cases htr : (s.is_power_lost &&
        is_low_battery (decode_capacity raw4) (decode_voltage raw2)) <;>
    simp [loop_tick, read_metrics, read_voltage, read_capacity, log_status,
      hlog, htr, TickOutcome.initiated, TickOutcome.acts, TickOutcome.state,
      TickOutcome.isNormal]

/-- C1: with both readings set, the low-battery predicate holds iff
`capacity < 15` or `voltage < 3.2` (either breach alone suffices), and a
loop iteration runs the shutdown sequence iff the power-lost flag is set
and the predicate holds on the fresh readings.  Concretely, with the flag
set: capacity 10 / voltage 3.5 triggers (bus words 10 and 175 decode to
those values), capacity 50 / voltage 3.0 triggers, and capacity 50 /
voltage 3.5 does not. -/
theorem c1_low_battery_trigger :
    (∀ (b : BatteryState) (c v : ℚ), b.capacity = some c → b.voltage = some v →
        (is_low_battery_getter b = some (is_low_battery c v) ∧
         (is_low_battery c v = true ↔ (c < MIN_CAPACITY ∨ v < MIN_VOLTAGE)))) ∧
    (∀ (s : ControllerState) (raw2 raw4 : ℕ),
        (loop_tick s (some raw2) (some raw4)).initiated =
          (s.is_power_lost &&
            is_low_battery (decode_capacity raw4) (decode_voltage raw2))) ∧
    (decode_capacity 10 = 10 ∧ decode_voltage 175 = 3.5 ∧
     decode_capacity 50 = 50 ∧ decode_voltage 150 = 3) ∧
    (loop_tick power_lost_start (some 175) (some 10)).initiated = true ∧
    (loop_tick power_lost_start (some 150) (some 50)).initiated = true ∧
    (loop_tick power_lost_start (some 175) (some 50)).initiated = false := by
  have hc10 : decode_capacity 10 = 10 := by
    norm_num [decode_capacity, swapped, pack_be16, unpack_le16]
  have hv175 : decode_voltage 175 = 3.5 := by
    norm_num [decode_voltage, swapped, pack_be16, unpack_le16]
  have hc50 : decode_capacity 50 = 50 := by
    norm_num [decode_capacity, swapped, pack_be16, unpack_le16]
  have hv150 : decode_voltage 150 = 3 := by
    norm_num [decode_voltage, swapped, pack_be16, unpack_le16]
  have hlb1 : is_low_battery 10 3.5 = true := by
    simp only [is_low_battery, Bool.or_eq_true, decide_eq_true_eq]
    norm_num [MIN_CAPACITY, MIN_VOLTAGE]
  have hlb2 : is_low_battery 50 3 = true := by
    simp only [is_low_battery, Bool.or_eq_true, decide_eq_true_eq]
    norm_num [MIN_CAPACITY, MIN_VOLTAGE]
  have hlb3 : is_low_battery 50 3.5 = false := by
    simp only [is_low_battery, Bool.or_eq_false_iff, decide_eq_false_iff_not]
    norm_num [MIN_CAPACITY, MIN_VOLTAGE]
  refine ⟨?_, fun s raw2 raw4 => (loop_tick_read_ok s raw2 raw4).1,
    ⟨hc10, hv175, hc50, hv150⟩, ?_, ?_, ?_⟩
  · intro b c v hc hv
    refine ⟨by simp [is_low_battery_getter, hc, hv], ?_⟩
    simp [is_low_battery]
  · rw [(loop_tick_read_ok power_lost_start 175 10).1, hc10, hv175, hlb1]
    rfl
  · rw [(loop_tick_read_ok power_lost_start 150 50).1, hc50, hv150, hlb2]
    rfl
  · rw [(loop_tick_read_ok power_lost_start 175 50).1, hc50, hv175, hlb3]
    rfl

/-- Witness for C1 at a concrete state and bus words: the first conjunct
instantiated at readings capacity 50, voltage 3. -/
theorem c1_low_battery_trigger_witness :
    ((⟨some 50, some 3⟩ : BatteryState).capacity = some 50 ∧
     (⟨some 50, some 3⟩ : BatteryState).voltage = some 3) ∧
    (is_low_battery_getter ⟨some 50, some 3⟩ = some (is_low_battery 50 3) ∧
     (is_low_battery 50 3 = true ↔ ((50 : ℚ) < MIN_CAPACITY ∨ (3 : ℚ) < MIN_VOLTAGE))) :=
  ⟨⟨rfl, rfl⟩, c1_low_battery_trigger.1 ⟨some 50, some 3⟩ 50 3 rfl rfl⟩

/-- C2 counterexample: starting from readings voltage = 0, capacity = 0,
a successful first read of bus word 16 followed by a failed second read
does NOT leave both exposed readings at their prior values — the voltage
has already been overwritten by the first assignment. -/
theorem c2_counterexample :
    ¬ ((read_metrics ⟨some 0, some 0⟩ (some 16) none).1.voltage = some 0 ∧
       (read_metrics ⟨some 0, some 0⟩ (some 16) none).1.capacity = some 0) := by
  intro h
  have hv : some (decode_voltage 16) = some (0 : ℚ) := h.1
  have h1 : decode_voltage 16 = 0 := Option.some_inj.mp hv
  have h2 : decode_voltage 16 = 8 / 25 := by
    norm_num [decode_voltage, swapped, pack_be16, unpack_le16]
  rw [h2] at h1
  norm_num at h1

/-- C2 (amended): when the first register read succeeds and the second
fails, the gauge is left half-updated: the voltage is replaced by the
newly decoded value while the capacity retains its prior value, and the
call fails; only when the first read fails do both readings remain their
prior values. -/
theorem c2_half_update :
    (∀ (b : BatteryState) (raw : ℕ),
        read_metrics b (some raw) none =
          ({ b with voltage := some (decode_voltage raw) }, false)) ∧
    (∀ (b : BatteryState) (raw : ℕ),
        (read_metrics b (some raw) none).1.capacity = b.capacity) ∧
    (∀ (b : BatteryState) (r4 : Option ℕ), read_metrics b none r4 = (b, false)) :=
  ⟨fun _ _ => rfl, fun _ _ => rfl, fun _ _ => rfl⟩

/-- C3: evaluating `stop` at the failing input.  The first call succeeds
and only logs (it runs no shutdown sequence); the second call reaches
`Future.set_result` on an already-done future and raises
`asyncio.InvalidStateError` instead of being an error-free no-op. -/
theorem c3_second_stop_raises :
    stop (ControllerState.init 0) =
      .ok ({ ControllerState.init 0 with terminate_event := true },
           [.logInfo "Terminating"]) ∧
    stop { ControllerState.init 0 with terminate_event := true } =
      .error "InvalidStateError" :=
  ⟨rfl, rfl⟩

/-- C4 counterexample: a failed bus read makes the loop iteration end in
an uncaught exception (the loop does not continue to the next tick), and
when the failure hits the second read the previously held voltage is not
retained either. -/
theorem c4_counterexample :
    (loop_tick (ControllerState.init 0) none none).isNormal = false ∧
    (loop_tick ⟨false, 0, ⟨some 0, some 0⟩, -1, false⟩ (some 16) none).isNormal
      = false ∧
    (loop_tick ⟨false, 0, ⟨some 0, some 0⟩, -1, false⟩
      (some 16) none).state.battery.voltage ≠ some 0 := by
  refine ⟨rfl, rfl, ?_⟩
  intro h
  have h1 : decode_voltage 16 = 0 := Option.some_inj.mp h
  have h2 : decode_voltage 16 = 8 / 25 := by
    norm_num [decode_voltage, swapped, pack_be16, unpack_le16]
  rw [h2] at h1
  norm_num at h1

/-- C4 (amended): a bus error during the battery read skips the rest of
the tick's evaluation but is not caught anywhere: the exception
propagates out of the loop coroutine, terminating the loop, with no
error logged.  A failure of the first read leaves the whole state
untouched; a failure of the second read leaves the voltage already
overwritten. -/
theorem c4_bus_error_propagates :
    (∀ (s : ControllerState) (r4 : Option ℕ),
        loop_tick s none r4 = .exception s) ∧
    (∀ (s : ControllerState) (raw2 : ℕ),
        loop_tick s (some raw2) none =
          .exception { s with battery :=
            { s.battery with voltage := some (decode_voltage raw2) } }) :=
  ⟨fun _ _ => rfl, fun _ _ => rfl⟩

/-- C5: per press cycle exactly one classification is delivered: a
release strictly before the 2-second deadline yields `SHORT_PRESS` at the
release instant; with no release before the deadline, `LONG_PRESS` is
emitted at the deadline itself, whether the release never comes, comes
late, or further stale falling edges follow; and a falling edge with no
active race is a complete no-op (nothing emitted, no cycle started). -/
theorem c5_press_classification :
    (∀ t u : ℕ, t ≤ u → u < t + 2 →
        (run_events ClassifierState.init [.press t, .release u]).emits =
          [(u, PressAction.SHORT_PRESS)]) ∧
    (∀ t u : ℕ, t + 2 ≤ u →
        (run_events ClassifierState.init [.press t, .release u]).emits =
          [(t + 2, PressAction.LONG_PRESS)]) ∧
    (∀ t : ℕ,
        (fire_timeout (run_events ClassifierState.init [.press t]) (t + 2)).emits =
          [(t + 2, PressAction.LONG_PRESS)]) ∧
    (∀ t u w : ℕ, t + 2 ≤ u → u ≤ w →
        (run_events ClassifierState.init [.press t, .release u, .release w]).emits =
          [(t + 2, PressAction.LONG_PRESS)]) ∧
    (∀ (s : ClassifierState) (u : ℕ), s.deadline = none → s.futureDone ≠ some false →
        on_release s u = s) := by
  refine ⟨?_, ?_, ?_, ?_, ?_⟩
  · intro t u h1 h2
    have hnle : ¬ (t + 2 ≤ u) := by omega
    simp [run_events, on_press, on_release, fire_timeout, ClassifierState.init, hnle]
  · intro t u h1
    simp [run_events, on_press, on_release, fire_timeout, ClassifierState.init, h1]
  · intro t
    simp [run_events, on_press, fire_timeout, ClassifierState.init]
  · intro t u w h1 h2
    simp [run_events, on_press, on_release, fire_timeout, ClassifierState.init, h1]
  · intro s u h1 h2
    cases hf : s.futureDone with
    | none => simp [on_release, fire_timeout, h1, hf]
    | some b =>
      cases b with
      | false => exact absurd hf h2
      | true => simp [on_release, fire_timeout, h1, hf]

/-- Witness for C5: a release at t = 1 after a press at t = 0 is a short
press; a press at t = 3 with release at t = 9 is a long press at t = 5;
the same press with no release at all times out at t = 5; a trailing
stale release at t = 12 adds nothing; a falling edge against an
already-resolved future is the identity. -/
theorem c5_press_classification_witness :
    (run_events ClassifierState.init [.press 0, .release 1]).emits =
      [(1, PressAction.SHORT_PRESS)] ∧
    (run_events ClassifierState.init [.press 3, .release 9]).emits =
      [(3 + 2, PressAction.LONG_PRESS)] ∧
    (fire_timeout (run_events ClassifierState.init [.press 3]) (3 + 2)).emits =
      [(3 + 2, PressAction.LONG_PRESS)] ∧
    (run_events ClassifierState.init [.press 3, .release 9, .release 12]).emits =
      [(3 + 2, PressAction.LONG_PRESS)] ∧
    on_release ⟨some true, none, []⟩ 7 = ⟨some true, none, []⟩ :=
  ⟨c5_press_classification.1 0 1 (by decide) (by decide),
   c5_press_classification.2.1 3 9 (by decide),
   c5_press_classification.2.2.1 3,
   c5_press_classification.2.2.2.1 3 9 12 (by decide) (by decide),
   c5_press_classification.2.2.2.2 ⟨some true, none, []⟩ 7 rfl (by decide)⟩

/-- C6 counterexample: at a power-lost state with fresh readings
capacity 10 / voltage 3.5 the evaluation does start the hardware
power-off sequence, but none of the recorded actions is an OS command
(no `shutdown now` is issued), the termination future is still pending
afterwards, and a subsequent short button press is not ignored (it is
handled, producing a reboot rather than the no-op of a terminated
controller). -/
theorem c6_counterexample :
    (loop_tick power_lost_start (some 175) (some 10)).initiated = true ∧
    ((loop_tick power_lost_start (some 175) (some 10)).acts.all
      (fun a => ! a.isOsCall)) = true ∧
    (loop_tick power_lost_start (some 175) (some 10)).state.terminate_event
      = false ∧
    on_power_button_press (loop_tick power_lost_start (some 175) (some 10)).state
        PressAction.SHORT_PRESS ≠
      Except.ok ((loop_tick power_lost_start (some 175) (some 10)).state, []) := by
  have hc10 : decode_capacity 10 = 10 := by
    norm_num [decode_capacity, swapped, pack_be16, unpack_le16]
  have hv175 : decode_voltage 175 = 3.5 := by
    norm_num [decode_voltage, swapped, pack_be16, unpack_le16]
  have hlb : is_low_battery 10 3.5 = true := by
    simp only [is_low_battery, Bool.or_eq_true, decide_eq_true_eq]
    norm_num [MIN_CAPACITY, MIN_VOLTAGE]
  have hspec := loop_tick_read_ok power_lost_start 175 10
  have hterm : (loop_tick power_lost_start (some 175) (some 10)).state.terminate_event
      = false := hspec.2.2.1.trans rfl
  refine ⟨?_, ?_, hterm, ?_⟩
  · rw [hspec.1, hc10, hv175, hlb]
    rfl
  · rw [hspec.2.1, hc10, hv175, hlb]
    rfl
  · intro h
    simp [on_power_button_press, reboot, stop, hterm] at h

/-- C6 (amended): whenever the periodic evaluation initiates the
low-battery shutdown, it performs only the hardware power-off sequence
(configure pin 13 as output, assert high, hold 3 seconds, release low):
no OS command is among those actions, the termination future is left as
it was — so the controller does not transition to a shutting-down state
and later button presses are still handled. -/
theorem c6_low_battery_hardware_only :
    ∀ (s : ControllerState) (raw2 raw4 : ℕ),
      s.is_power_lost = true →
      is_low_battery (decode_capacity raw4) (decode_voltage raw2) = true →
      (loop_tick s (some raw2) (some raw4)).initiated = true ∧
      (loop_tick s (some raw2) (some raw4)).acts = initiate_shutdown_actions ∧
      (initiate_shutdown_actions.all fun a => ! a.isOsCall) = true ∧
      (loop_tick s (some raw2) (some raw4)).state.terminate_event
        = s.terminate_event := by
  intro s raw2 raw4 hp hl
  have hspec := loop_tick_read_ok s raw2 raw4
  rw [hp, hl] at hspec
  exact ⟨hspec.1, by rw [hspec.2.1]; rfl, by decide, hspec.2.2.1⟩

/-- Witness for C6 (amended) at the power-lost start state with fresh
readings capacity 50 / voltage 3.0 (bus words 50 and 150). -/
theorem c6_low_battery_hardware_only_witness :
    power_lost_start.is_power_lost = true ∧
    is_low_battery (decode_capacity 50) (decode_voltage 150) = true ∧
    ((loop_tick power_lost_start (some 150) (some 50)).initiated = true ∧
     (loop_tick power_lost_start (some 150) (some 50)).acts
       = initiate_shutdown_actions ∧
     (initiate_shutdown_actions.all fun a => ! a.isOsCall) = true ∧
     (loop_tick power_lost_start (some 150) (some 50)).state.terminate_event
       = power_lost_start.terminate_event) :=
  ⟨rfl,
   by
     have hc : decode_capacity 50 = 50 := by
       norm_num [decode_capacity, swapped, pack_be16, unpack_le16]
     have hv : decode_voltage 150 = 3 := by
       norm_num [decode_voltage, swapped, pack_be16, unpack_le16]
     rw [hc, hv]
     simp only [is_low_battery, Bool.or_eq_true, decide_eq_true_eq]
     norm_num [MIN_CAPACITY, MIN_VOLTAGE],
   c6_low_battery_hardware_only power_lost_start 150 50 rfl
     (by
       have hc : decode_capacity 50 = 50 := by
         norm_num [decode_capacity, swapped, pack_be16, unpack_le16]
       have hv : decode_voltage 150 = 3 := by
         norm_num [decode_voltage, swapped, pack_be16, unpack_le16]
       rw [hc, hv]
       simp only [is_low_battery, Bool.or_eq_true, decide_eq_true_eq]
       norm_num [MIN_CAPACITY, MIN_VOLTAGE])⟩

/-- C7: for every 16-bit bus word, the decode is a (pure, deterministic —
it is a function of the word alone) composition of the little-endian →
big-endian byte swap with `capacity = swapped / 256` and
`voltage = swapped * 1.25 / 1000 / 16`; the swap sends `read` to
`(read % 256) * 256 + read / 256`. -/
theorem c7_decode_pure :
    ∀ read : ℕ, read < 65536 →
      swapped read = (read % 256) * 256 + read / 256 ∧
      decode_capacity read = (swapped read : ℚ) / 256 ∧
      decode_voltage read = (swapped read : ℚ) * 1.25 / 1000 / 16 := by
  intro read h
  refine ⟨?_, rfl, rfl⟩
  simp only [swapped, pack_be16, unpack_le16]
  omega

/-- Witness for C7 at the spec's example word `0x1000` = 4096. -/
theorem c7_decode_pure_witness :
    4096 < 65536 ∧
    (swapped 4096 = (4096 % 256) * 256 + 4096 / 256 ∧
     decode_capacity 4096 = (swapped 4096 : ℚ) / 256 ∧
     decode_voltage 4096 = (swapped 4096 : ℚ) * 1.25 / 1000 / 16) :=
  ⟨by decide, c7_decode_pure 4096 (by decide)⟩

/-- C8: the `divmod` chain decomposes any non-negative whole-second
count exactly into days/hours/minutes/seconds (with the lower magnitudes
in range), the join keeps the non-zero magnitudes in order separated by
`", "`, 90065 seconds format as
`"1 days, 1 hours, 1 minutes, 5 seconds"`, 30 seconds as
`"30 seconds"`, and in general a sub-minute positive count keeps only
the seconds magnitude. -/
theorem c8_duration_format :
    (∀ elapsed : ℕ,
        (duration_parts elapsed).1 * 86400 + (duration_parts elapsed).2.1 * 3600 +
            (duration_parts elapsed).2.2.1 * 60 + (duration_parts elapsed).2.2.2 =
          elapsed ∧
        (duration_parts elapsed).2.1 < 24 ∧
        (duration_parts elapsed).2.2.1 < 60 ∧
        (duration_parts elapsed).2.2.2 < 60) ∧
    format_magnitudes 90065 = "1 days, 1 hours, 1 minutes, 5 seconds" ∧
    format_magnitudes 30 = "30 seconds" ∧
    (∀ e : ℕ, 0 < e → e < 60 → format_magnitudes e = toString e ++ " seconds") := by
  refine ⟨?_, by decide, by decide, ?_⟩
  · intro elapsed
    have hdp : duration_parts elapsed =
        (elapsed / 86400, elapsed % 86400 / 3600,
         elapsed % 86400 % 3600 / 60, elapsed % 86400 % 3600 % 60) := rfl
    rw [hdp]
    dsimp only
    omega
  · intro e h1 h2
    have hd : e / 86400 = 0 := by omega
    have hm : e % 86400 = e := by omega
    have h3 : e / 3600 = 0 := by omega
    have h4 : e % 3600 = e := by omega
    have h5 : e / 60 = 0 := by omega
    have h6 : e % 60 = e := by omega
    have hne : (e != 0) = true := by simp only [bne_iff_ne, ne_eq]; omega
    simp [format_magnitudes, duration_parts, hd, hm, h3, h4, h5, h6, hne,
      String.intercalate, String.intercalate.go, String.append_assoc]

/-- Witness for C8 at 30 seconds, discharging the positivity and
sub-minute bounds of the last conjunct. -/
theorem c8_duration_format_witness :
    0 < 30 ∧ 30 < 60 ∧ format_magnitudes 30 = toString 30 ++ " seconds" :=
  ⟨by decide, by decide, c8_duration_format.2.2.2 30 (by decide) (by decide)⟩

/-- C9: `on_power_loss_change` stores the given boolean (also when it
equals the stored one) and resets the mode timestamp to the given
current time, and leaves every other controller field unchanged. -/
theorem c9_power_loss_change :
    ∀ (s : ControllerState) (b : Bool) (now : ℤ),
      (on_power_loss_change s b now).is_power_lost = b ∧
      (on_power_loss_change s b now).in_power_mode_since = now ∧
      (on_power_loss_change s b now).battery = s.battery ∧
      (on_power_loss_change s b now).previous_battery_capacity
        = s.previous_battery_capacity ∧
      (on_power_loss_change s b now).terminate_event = s.terminate_event :=
  fun _ _ _ => ⟨rfl, rfl, rfl, rfl, rfl⟩

/-- `log_status` on a state with both readings set either logs and
stores the capacity (difference from the marker at least one point) or
leaves the state untouched. -/
theorem log_status_spec (s : ControllerState) (c v : ℚ)
    (hb : s.battery = ⟨some c, some v⟩) :
    log_status s =
      if 1 ≤ |c - s.previous_battery_capacity|
      then some ({ s with previous_battery_capacity := c }, true)
      else some (s, false) := by
  by_cases h : 1 ≤ |c - s.previous_battery_capacity| <;>
    simp [log_status, hb, h]

/-- C10: the marker `_previous_battery_capacity` starts at −1, so any
first reading with capacity in 0–100 differs from it by at least 1 and
is logged (storing its capacity in the marker); in general a reading is
logged iff its capacity differs from the marker by at least 1, logging
updates the marker to that capacity, and a skipped reading leaves the
state unchanged. -/
theorem c10_capacity_log_marker :
    (∀ now : ℤ, (ControllerState.init now).previous_battery_capacity = -1) ∧
    (∀ (now : ℤ) (c v : ℚ), 0 ≤ c → c ≤ 100 →
        log_status { ControllerState.init now with battery := ⟨some c, some v⟩ } =
          some ({ ControllerState.init now with
                   battery := ⟨some c, some v⟩
                   previous_battery_capacity := c }, true)) ∧
    (∀ (s : ControllerState) (c v : ℚ), s.battery = ⟨some c, some v⟩ →
        (((∃ s1, log_status s = some (s1, true)) ↔
            1 ≤ |c - s.previous_battery_capacity|) ∧
         (1 ≤ |c - s.previous_battery_capacity| →
            log_status s = some ({ s with previous_battery_capacity := c }, true)) ∧
         (¬ 1 ≤ |c - s.previous_battery_capacity| →
            log_status s = some (s, false)))) := by
  refine ⟨fun _ => rfl, ?_, ?_⟩
  · intro now c v h0 h100
    have hprev : ControllerState.previous_battery_capacity
        { ControllerState.init now with battery := ⟨some c, some v⟩ } = -1 := rfl
    have habs : 1 ≤ |c - ControllerState.previous_battery_capacity
        { ControllerState.init now with battery := ⟨some c, some v⟩ }| := by
      rw [hprev, sub_neg_eq_add, abs_of_nonneg (by linarith)]
      linarith
    rw [log_status_spec _ c v rfl, if_pos habs]
  · intro s c v hb
    refine ⟨⟨?_, ?_⟩, ?_, ?_⟩
    · rintro ⟨s1, hs1⟩
      rw [log_status_spec s c v hb] at hs1
      by_cases h : 1 ≤ |c - s.previous_battery_capacity|
      · exact h
      · rw [if_neg h] at hs1
        simp at hs1
    · intro h
      exact ⟨_, by rw [log_status_spec s c v hb, if_pos h]⟩
    · intro h
      rw [log_status_spec s c v hb, if_pos h]
    · intro h
      rw [log_status_spec s c v hb, if_neg h]

/-- Witness for C10: the first reading capacity 50 / voltage 4 on a
fresh controller is logged and stored in the marker. -/
theorem c10_capacity_log_marker_witness :
    (0 : ℚ) ≤ 50 ∧ (50 : ℚ) ≤ 100 ∧
    log_status { ControllerState.init 0 with battery := ⟨some 50, some 4⟩ } =
      some ({ ControllerState.init 0 with
               battery := ⟨some 50, some 4⟩
               previous_battery_capacity := 50 }, true) :=
  ⟨by norm_num, by norm_num,
   c10_capacity_log_marker.2.1 0 50 4 (by norm_num) (by norm_num)⟩

end X708
